import Mathlib

/-!
Verification of the MeetMe marketplace real-time chat core.

This file gives a shallow embedding of the chat subsystem of the Django
backend (`api/views.py` chat endpoints, `api/consumers.py` and
`marketplace_backend/channels_jwt_middleware.py`) and proves properties of
the embedded operations.

Modelling conventions:
  * Database rows become Lean structures; the database is a record of lists.
  * `timezone.now()` readings and auto-generated timestamps/primary keys are
    explicit parameters of each operation.
  * Each HTTP endpoint / consumer handler is a pure function from the
    database (plus its inputs) to the new database, the list of
    `channel_layer.group_send` calls it performs, and its response.
  * `get_channel_layer()` may return `none` when no channel layer is
    configured; operations that guard on it take a `hasChannelLayer` flag.
  * Machine integers do not overflow in this code path; ids and clock values
    are `Nat`.
-/

namespace Chat

/-- Delivery status of a `Message` (`Message.STATUS_*` in `api/models.py`). -/
inductive MessageStatus
  | sent
  | delivered
  | read
deriving DecidableEq, Repr

/-- Rank of a status along the `sent → delivered → read` progression. -/
def statusRank : MessageStatus → Nat
  | .sent => 0
  | .delivered => 1
  | .read => 2

/-- A row of the `conversations` table (`Conversation` in `api/models.py`).
`seller_user_id` is `conversation.seller.user_id`, the owning user of the
seller profile. -/
structure Conversation where
  id : Nat
  buyer_id : Nat
  seller_user_id : Nat
  last_message_at : Nat
deriving DecidableEq, Repr

/-- A row of the `messages` table (`Message` in `api/models.py`). -/
structure Message where
  id : Nat
  conversation_id : Nat
  sender_id : Nat
  text : String
  status : MessageStatus
  is_read : Bool
  created_at : Nat
deriving DecidableEq, Repr

/-- A row of `conversation_participant_states`
(`ConversationParticipantState` in `api/models.py`). -/
structure ConversationParticipantState where
  conversation_id : Nat
  user_id : Nat
  is_typing : Bool
  last_typing_at : Option Nat
  last_seen_at : Option Nat
  last_read_at : Option Nat
deriving DecidableEq, Repr

/-- A row of the `notifications` table (`Notification` in `api/models.py`);
`data_conversation_id` / `data_message_id` are the JSON `data` payload
written by `MessageViewSet.create`. -/
structure Notification where
  user_id : Nat
  notif_type : String
  title : String
  body : String
  data_conversation_id : Nat
  data_message_id : Nat
deriving DecidableEq, Repr

/-- The persistent store: user ids plus the four chat tables. -/
structure DB where
  users : List Nat
  conversations : List Conversation
  messages : List Message
  participant_states : List ConversationParticipantState
  notifications : List Notification
deriving DecidableEq, Repr

/-- `Conversation.objects.get(pk=cid)` / the serializer's pk lookup. -/
def findConv (db : DB) (cid : Nat) : Option Conversation :=
  db.conversations.find? (fun c => c.id == cid)

/-- The membership test used all over the chat views:
`conversation.buyer_id == user.id or conversation.seller.user_id == user.id`. -/
def isParticipant (c : Conversation) (uid : Nat) : Bool :=
  c.buyer_id == uid || c.seller_user_id == uid

/-- Row selector for the `(conversation, user)` unique key of
`ConversationParticipantState`. -/
def stateKey (cid uid : Nat) (s : ConversationParticipantState) : Bool :=
  s.conversation_id == cid && s.user_id == uid

/-- `ConversationParticipantState.objects.get(conversation=…, user=…)`. -/
def findState (states : List ConversationParticipantState) (cid uid : Nat) :
    Option ConversationParticipantState :=
  states.find? (stateKey cid uid)

/-- A freshly created participant-state row with model-field defaults. -/
def defaultState (cid uid : Nat) : ConversationParticipantState :=
  ⟨cid, uid, false, none, none, none⟩

/-- `get_or_create` / `update_or_create` followed by a field update `f`:
mutate the matching row if present, otherwise insert `f` applied to a
default row. -/
def setState (states : List ConversationParticipantState) (cid uid : Nat)
    (f : ConversationParticipantState → ConversationParticipantState) :
    List ConversationParticipantState :=
  match findState states cid uid with
  | some _ => states.map (fun s => if stateKey cid uid s then f s else s)
  | none => states ++ [f (defaultState cid uid)]

/-- The in-memory row object held by the view after `get_or_create` and the
field assignments `f` (the object the view serializes into its broadcast). -/
def savedState (states : List ConversationParticipantState) (cid uid : Nat)
    (f : ConversationParticipantState → ConversationParticipantState) :
    ConversationParticipantState :=
  f ((findState states cid uid).getD (defaultState cid uid))

/-- The field updates of a "seen" bump: `last_seen_at = now`,
`last_read_at = now`, `is_typing = False`. -/
def setSeen (now : Nat) (s : ConversationParticipantState) :
    ConversationParticipantState :=
  { s with last_seen_at := some now, last_read_at := some now, is_typing := false }

/-- The participant-state snapshot sent in typing broadcasts (the fields of
the JSON payloads built in `ConversationViewSet.typing` and
`ChatConsumer._get_participant_state`). -/
structure StatePayload where
  conversation : Nat
  user_id : Nat
  is_typing : Bool
  last_typing_at : Option Nat
  last_seen_at : Option Nat
  last_read_at : Option Nat
deriving DecidableEq, Repr

/-- Serialize a participant-state row into the broadcast snapshot. -/
def payloadOfState (s : ConversationParticipantState) : StatePayload :=
  ⟨s.conversation_id, s.user_id, s.is_typing, s.last_typing_at,
   s.last_seen_at, s.last_read_at⟩

/-- An event handed to `channel_layer.group_send`: either
`{"type": "chat.message", "message": …}` or
`{"type": "conversation.typing", "state": …}`. -/
inductive GroupMsg
  | chatMessage (m : Message)
  | conversationTyping (p : StatePayload)
deriving DecidableEq, Repr

/-- The group key `f"chat_{conversation.id}"`. -/
def groupName (cid : Nat) : String := "chat_" ++ toString cid

/-- Python's notion of ASCII whitespace for `str.strip()`. -/
def pyIsSpace (c : Char) : Bool :=
  c == ' ' || c == '\t' || c == '\n' || c == '\r' || c == '\x0b' || c == '\x0c'

/-- Python's `str.strip()` with no argument: drop whitespace on both ends. -/
def pyStrip (s : String) : String :=
  ⟨((s.data.dropWhile pyIsSpace).reverse.dropWhile pyIsSpace).reverse⟩

/-- Python's `str.lower()` (ASCII case suffices for the headers handled). -/
def pyLower (s : String) : String :=
  ⟨s.data.map Char.toLower⟩

/-- List-level prefix test, used for `str.startswith`. -/
def charsStartWith : List Char → List Char → Bool
  | [], _ => true
  | _ :: _, [] => false
  | a :: as, b :: bs => a == b && charsStartWith as bs

/-- Python's `s[:n]` slice. -/
def pyTake (s : String) (n : Nat) : String := ⟨s.data.take n⟩

/-- One `group_send`: the target group key and the event. -/
abbrev Broadcast := String × GroupMsg

/-- Result of one endpoint call: the database afterwards, the `group_send`
calls performed, and the HTTP response. -/
structure OpResult (R : Type) where
  db : DB
  broadcasts : List Broadcast
  resp : R
deriving Repr

/-- Response of `ConversationViewSet.mark_seen`. -/
inductive SeenResp
  | notFound
  | forbidden
  | ok (marked_read : Nat)
deriving DecidableEq, Repr

/-- Response of `ConversationViewSet.typing`. -/
inductive TypingResp
  | notFound
  | forbidden
  | ok (is_typing : Bool)
deriving DecidableEq, Repr

/-- Response of `MessageViewSet.mark_read`. -/
inductive ReadResp
  | notFound
  | forbidden
  | ok (is_read : Bool)
deriving DecidableEq, Repr

/-- Response of `MessageViewSet.create`. `serverError` is an uncaught
exception propagating out of the view. -/
inductive CreateResp
  | badRequest
  | forbidden
  | serverError
  | created (m : Message)
deriving DecidableEq, Repr

/-- The messages selected by `conversation.messages.filter(is_read=False)
.exclude(sender=user)` in `mark_seen`. -/
def markSeenTarget (cid uid : Nat) (m : Message) : Bool :=
  m.conversation_id == cid && m.is_read == false && !(m.sender_id == uid)

/-- `ConversationViewSet.mark_seen` (`api/views.py`): bulk-update the other
side's unread messages to read and bump the caller's participant state.
`get_object` runs over `get_queryset`, which is filtered to conversations
where the caller participates, so a non-participant gets a 404; the explicit
membership check in the view body can then never fire. -/
def mark_seen (db : DB) (convId userId now : Nat) : OpResult SeenResp :=
  match findConv db convId with
  | none => ⟨db, [], .notFound⟩
  | some conversation =>
    if !(isParticipant conversation userId) then ⟨db, [], .notFound⟩
    else if !(isParticipant conversation userId) then ⟨db, [], .forbidden⟩
    else
      let count := (db.messages.filter (markSeenTarget conversation.id userId)).length
      let msgs := db.messages.map (fun m =>
        if markSeenTarget conversation.id userId m then
          { m with is_read := true, status := MessageStatus.read }
        else m)
      let states := setState db.participant_states conversation.id userId (setSeen now)
      ⟨{ db with messages := msgs, participant_states := states }, [], .ok count⟩

/-- `ConversationViewSet.typing` (`api/views.py`): upsert the caller's typing
flag (`bool(request.data.get("is_typing", True))`) and, when a channel layer
is configured, broadcast the resulting state snapshot to the conversation's
group. -/
def typing (db : DB) (convId userId : Nat) (isTypingField : Option Bool)
    (now : Nat) (hasChannelLayer : Bool) : OpResult TypingResp :=
  match findConv db convId with
  | none => ⟨db, [], .notFound⟩
  | some conversation =>
    if !(isParticipant conversation userId) then ⟨db, [], .notFound⟩
    else if !(isParticipant conversation userId) then ⟨db, [], .forbidden⟩
    else
      let is_typing := isTypingField.getD true
      let upd := fun (s : ConversationParticipantState) =>
        { s with is_typing := is_typing, last_typing_at := some now }
      let states := setState db.participant_states conversation.id userId upd
      let st := savedState db.participant_states conversation.id userId upd
      let bs : List Broadcast :=
        if hasChannelLayer then
          [(groupName conversation.id, GroupMsg.conversationTyping (payloadOfState st))]
        else []
      ⟨{ db with participant_states := states }, bs, .ok is_typing⟩

/-- `MessageViewSet.mark_read` (`api/views.py`): mark one message read for
the caller. `get_object` runs over the participant-filtered queryset, so a
non-participant gets 404 and the view's own membership check never fires;
the message's own sender gets its current `is_read` back unchanged. -/
def mark_read (db : DB) (msgId userId now : Nat) : OpResult ReadResp :=
  match db.messages.find? (fun m => m.id == msgId) with
  | none => ⟨db, [], .notFound⟩
  | some msg =>
    match findConv db msg.conversation_id with
    | none => ⟨db, [], .notFound⟩
    | some conversation =>
      if !(isParticipant conversation userId) then ⟨db, [], .notFound⟩
      else if !(isParticipant conversation userId) then ⟨db, [], .forbidden⟩
      else if msg.sender_id == userId then ⟨db, [], .ok msg.is_read⟩
      else if msg.is_read == false then
        let msgs := db.messages.map (fun x =>
          if x.id == msg.id then { x with is_read := true, status := MessageStatus.read }
          else x)
        let states := setState db.participant_states conversation.id userId
          (fun s => { s with last_seen_at := some now, last_read_at := some now })
        ⟨{ db with messages := msgs, participant_states := states }, [], .ok true⟩
      else ⟨db, [], .ok msg.is_read⟩

/-- Fault-injection environment for `MessageViewSet.create`:
whether `get_channel_layer()` returns a layer, and whether the
`Notification.objects.create` database write raises. -/
structure CreateEnv where
  hasChannelLayer : Bool
  notifWriteFails : Bool
deriving DecidableEq, Repr

/-- `MessageViewSet.create` (`api/views.py`): validate the conversation pk
(400 when absent), check membership (403), persist the message with status
`sent` / `is_read=False`, bump `Conversation.last_message_at` to the
message's `created_at`, bump the sender's participant state, write one
`Notification` for the other participant, then broadcast. The notification
write is not wrapped in any exception handler: when it raises, the
exception escapes the view after the message row was already committed. -/
def create (db : DB) (convId : Nat) (text : String) (userId : Nat)
    (createdAt now newMsgId : Nat) (env : CreateEnv) : OpResult CreateResp :=
  match findConv db convId with
  | none => ⟨db, [], .badRequest⟩
  | some conversation =>
    if !(isParticipant conversation userId) then ⟨db, [], .forbidden⟩
    else
      let msg : Message :=
        ⟨newMsgId, conversation.id, userId, text, MessageStatus.sent, false, createdAt⟩
      let convs := db.conversations.map (fun c =>
        if c.id == conversation.id then { c with last_message_at := createdAt } else c)
      let states := setState db.participant_states conversation.id userId (setSeen now)
      let db2 : DB := { db with
        messages := db.messages ++ [msg],
        conversations := convs,
        participant_states := states }
      if env.notifWriteFails then ⟨db2, [], .serverError⟩
      else
        let target := if userId == conversation.buyer_id then conversation.seller_user_id
          else conversation.buyer_id
        let notif : Notification :=
          ⟨target, "chat_message", "New message", pyTake text 120, conversation.id, newMsgId⟩
        let db3 : DB := { db2 with notifications := db2.notifications ++ [notif] }
        let bs : List Broadcast :=
          if env.hasChannelLayer then [(groupName conversation.id, GroupMsg.chatMessage msg)]
          else []
        ⟨db3, bs, .created msg⟩

/-- `str.strip()` of a digit run with Python's underscore rule: after the
first digit, single underscores may stand between digits. -/
def digitsTail : List Char → Bool
  | [] => true
  | ['_'] => false
  | '_' :: d :: rest => d.isDigit && digitsTail (d :: rest)
  | c :: rest => c.isDigit && digitsTail rest

/-- Numeric value of a digit run (underscores already removed). -/
def natFromDigits (cs : List Char) : Nat :=
  cs.foldl (fun acc c => acc * 10 + (c.toNat - 48)) 0

/-- Python's `int(str)`: strip whitespace, optional sign, then digits with
single underscores between digits; `none` when `int` raises `ValueError`. -/
def pyInt (s : String) : Option Int :=
  let core := (pyStrip s).data
  let signAndDigits : Bool × List Char :=
    match core with
    | '-' :: rest => (true, rest)
    | '+' :: rest => (false, rest)
    | _ => (false, core)
  match signAndDigits.2 with
  | [] => none
  | c :: rest =>
    if c.isDigit && digitsTail rest then
      let v : Int := Int.ofNat (natFromDigits ((c :: rest).filter (fun ch => !(ch == '_'))))
      some (if signAndDigits.1 then -v else v)
    else none

/-- `ChatConsumer._mark_seen` (`api/consumers.py`): look up the conversation
and the user, silently returning when either is missing, then
`update_or_create` the participant state with seen/read bumped and typing
cleared. -/
def consumerMarkSeen (db : DB) (uid cid now : Nat) : DB :=
  match findConv db cid, db.users.contains uid with
  | some _, true =>
    { db with participant_states := setState db.participant_states cid uid (setSeen now) }
  | _, _ => db

/-- `ChatConsumer._set_typing` (`api/consumers.py`): look up the conversation
and the user, silently returning when either is missing, then
`update_or_create` the participant state with the typing flag and time. -/
def consumerSetTyping (db : DB) (uid cid : Nat) (isT : Bool) (now : Nat) : DB :=
  match findConv db cid, db.users.contains uid with
  | some _, true =>
    let upd := fun (s : ConversationParticipantState) =>
      { s with is_typing := isT, last_typing_at := some now }
    { db with participant_states := setState db.participant_states cid uid upd }
  | _, _ => db

/-- Outcome of `ChatConsumer.connect`: a close with a WebSocket code, or an
accepted connection joined to the conversation. -/
inductive ConnectOutcome
  | closed (code : Nat)
  | accepted (conversationId : Nat)
deriving DecidableEq, Repr

/-- A frame sent to this connection's client (`send_json`). -/
inductive ClientEvent
  | connectionInfo (conversation_id user_id : Nat)
  | pong
  | messageCreated (m : Message)
  | typingState (p : StatePayload)
deriving DecidableEq, Repr

/-- Result of `ChatConsumer.connect`: new database, the broadcaster registry
(group key, channel) after the call, the outcome and the frames sent. -/
structure ConnectResult where
  db : DB
  groups : List (String × Nat)
  outcome : ConnectOutcome
  sent : List ClientEvent
deriving Repr

/-- `ChatConsumer.connect` (`api/consumers.py`): close 4401 for an anonymous
identity, 4400 when `int(conversation_id_raw)` raises, 4403 when the user is
not the conversation's buyer or seller owner; otherwise `group_add`, accept,
implicit mark-seen, and one diagnostic `connection` frame. `identity` is
`scope["user"]` (`none` = `AnonymousUser`), `channel` is `channel_name`. -/
def connect (db : DB) (groups : List (String × Nat)) (identity : Option Nat)
    (rawConvId : String) (channel : Nat) (now : Nat) : ConnectResult :=
  match identity with
  | none => ⟨db, groups, .closed 4401, []⟩
  | some uid =>
    match pyInt rawConvId with
    | none => ⟨db, groups, .closed 4400, []⟩
    | some n =>
      if db.conversations.any (fun c => ((c.id : Int) == n) && isParticipant c uid) then
        let cid := n.toNat
        let groups2 := (groupName cid, channel) :: groups
        let db2 := consumerMarkSeen db uid cid now
        ⟨db2, groups2, .accepted cid, [.connectionInfo cid uid]⟩
      else ⟨db, groups, .closed 4403, []⟩

/-- Result of `ChatConsumer.disconnect`. -/
structure DisconnectResult where
  db : DB
  groups : List (String × Nat)
deriving Repr

/-- `ChatConsumer.disconnect` (`api/consumers.py`): `group_discard` when a
room was joined, then — for a non-anonymous identity with a known
conversation id — force `is_typing=False` via `_set_typing`. The close code
is only logged. -/
def disconnect (db : DB) (groups : List (String × Nat)) (identity : Option Nat)
    (roomGroup : Option String) (convIdO : Option Nat) (channel : Nat)
    (closeCode : Nat) (now : Nat) : DisconnectResult :=
  let groups2 := match roomGroup with
    | some g => groups.filter (fun p => !(p.1 == g && p.2 == channel))
    | none => groups
  let db2 := match identity, convIdO with
    | some uid, some cid => consumerSetTyping db uid cid false now
    | _, _ => db
  ⟨db2, groups2⟩

/-- An inbound client frame as `receive_json` reads it: the `type` field and
the `is_typing` field, each possibly absent. -/
structure InboundMsg where
  etype : Option String
  isTypingField : Option Bool
deriving DecidableEq, Repr

/-- Result of `ChatConsumer.receive_json`. -/
structure ReceiveResult where
  db : DB
  broadcasts : List Broadcast
  sent : List ClientEvent
deriving Repr

/-- `ChatConsumer.receive_json` (`api/consumers.py`): ignore frames from an
anonymous identity; `ping` answers `pong`; `typing` reads
`bool(content.get("is_typing", True))`, upserts the state, re-reads the
snapshot and broadcasts it to the conversation's group; any other frame is
a no-op. -/
def receive_json (db : DB) (identity : Option Nat) (convIdO : Option Nat)
    (msg : InboundMsg) (now : Nat) : ReceiveResult :=
  match identity with
  | none => ⟨db, [], []⟩
  | some uid =>
    match msg.etype with
    | none => ⟨db, [], []⟩
    | some t =>
      if t == "ping" then ⟨db, [], [.pong]⟩
      else if t == "typing" then
        let isT := msg.isTypingField.getD true
        match convIdO with
        | none => ⟨db, [], []⟩
        | some cid =>
          let db2 := consumerSetTyping db uid cid isT now
          match findState db2.participant_states cid uid with
          | none => ⟨db2, [], []⟩
          | some s => ⟨db2, [(groupName cid, GroupMsg.conversationTyping (payloadOfState s))], []⟩
      else ⟨db, [], []⟩

/-- The `Authorization` header branch of `JWTAuthMiddleware.__call__`:
accept the token only after a case-insensitive `Bearer ` prefix, taking
everything after the first space, stripped. -/
def extractBearer (h : String) : Option String :=
  if charsStartWith "bearer ".data (pyLower h).data then some (pyStrip ⟨h.data.drop 7⟩)
  else none

/-- Token selection in `JWTAuthMiddleware.__call__` (`channels_jwt_middleware.py`):
`parse_qs` drops `token=` entries with an empty value; the first remaining
query value, stripped, wins when non-empty; otherwise the `Authorization`
header is parsed; a final empty string counts as no token at all. -/
def rawTokenOf (queryTokenValues : List String) (authHeader : Option String) :
    Option String :=
  let qVals := queryTokenValues.filter (fun v => !(v == ""))
  let fromQuery : Option String :=
    match qVals with
    | [] => none
    | v :: _ => some (pyStrip v)
  let tok : Option String :=
    match fromQuery with
    | some t => if t == "" then authHeader.bind extractBearer else some t
    | none => authHeader.bind extractBearer
  match tok with
  | some t => if t == "" then none else some t
  | none => none

/-- `JWTAuthMiddleware.__call__`: resolve `scope["user"]`. `validate` is the
SimpleJWT validation plus user lookup (`none` = any validation failure).
The result is the connection's identity; `none` is `AnonymousUser`. The
middleware never rejects: it always continues into the inner application. -/
def middlewareUser (queryTokenValues : List String) (authHeader : Option String)
    (validate : String → Option Nat) : Option Nat :=
  match rawTokenOf queryTokenValues authHeader with
  | none => none
  | some t => validate t

/-- The three state-changing chat operations of the synchronous core, for
stating invariants over all of them. -/
inductive ChatOp
  | createOp (convId : Nat) (text : String) (userId createdAt now newMsgId : Nat) (env : CreateEnv)
  | markReadOp (msgId userId now : Nat)
  | markSeenOp (convId userId now : Nat)

/-- The database produced by one synchronous chat operation. -/
def applyChatOp (db : DB) : ChatOp → DB
  | .createOp c t u ca n i e => (create db c t u ca n i e).db
  | .markReadOp m u n => (mark_read db m u n).db
  | .markSeenOp c u n => (mark_seen db c u n).db

/-- Modelled from the spec: a conversation identifier that is "a well-formed
positive integer" in the words of the connection-open rejection taxonomy — a
non-empty digit string denoting a value greater than zero. Used only to
compare the spec's description of the malformed-id rejection case with the
code's actual `int()`-based test. -/
def specWellFormedPositiveId (s : String) : Bool :=
  !(s.data.isEmpty) && s.data.all Char.isDigit && natFromDigits s.data > 0

/-- Concrete store: users 1 and 2, one conversation (id 1, buyer 1, seller
owner 2) and one unread message (id 10) sent by user 2. -/
def dbW : DB :=
  ⟨[1, 2], [⟨1, 1, 2, 0⟩], [⟨10, 1, 2, "yo", MessageStatus.sent, false, 3⟩], [], []⟩

/-- Concrete store with no messages: users 1 and 2, one conversation
(id 1, buyer 1, seller owner 2). -/
def dbE : DB := ⟨[1, 2], [⟨1, 1, 2, 0⟩], [], [], []⟩

/-- Concrete store for the connection counterexample: user 7 is buyer of the
only conversation, id 1. -/
def dbC : DB := ⟨[7], [⟨1, 7, 2, 0⟩], [], [], []⟩

/-- A concrete token validator: `tokA` resolves to user 1, `tokB` to user 2,
anything else fails. -/
def valW : String → Option Nat :=
  fun t => if t == "tokA" then some 1 else if t == "tokB" then some 2 else none

/-- `find?` over a conditional in-place update whose condition the update
preserves: updating the rows matching `p` commutes with looking one up. -/
theorem find?_map_cond {α : Type} (p : α → Bool) (f : α → α)
    (hf : ∀ a, p (f a) = p a) (l : List α) :
    (l.map (fun a => if p a then f a else a)).find? p = (l.find? p).map f := by
  induction l with
  | nil => rfl
  | cons a l ih =>
    by_cases h : p a
    · simp [List.find?, h, hf]
    · simp [List.find?, h, hf, ih]

/-- `find?` skips a prefix in which nothing matches. -/
theorem find?_append_of_none {α : Type} (p : α → Bool) (l1 l2 : List α)
    (h : l1.find? p = none) : (l1 ++ l2).find? p = l2.find? p := by
  induction l1 with
  | nil => rfl
  | cons a l ih =>
    have hfa : ∀ x ∈ a :: l, ¬p x = true := List.find?_eq_none.mp h
    have ha : p a = false := by simpa using hfa a (by simp)
    have hl : l.find? p = none := List.find?_eq_none.mpr (fun x hx => hfa x (List.mem_cons_of_mem a hx))
    simp only [List.cons_append, List.find?_cons, ha]
    exact ih hl

/-- A fresh default participant-state row matches its own key. -/
theorem stateKey_defaultState (cid uid : Nat) :
    stateKey cid uid (defaultState cid uid) = true := by
  simp [stateKey, defaultState]

/-- After `setState`, looking the row up yields exactly the in-memory row the
view saved, provided the update does not touch the key fields. -/
theorem findState_setState (states : List ConversationParticipantState) (cid uid : Nat)
    (f : ConversationParticipantState → ConversationParticipantState)
    (hf : ∀ s, stateKey cid uid (f s) = stateKey cid uid s) :
    findState (setState states cid uid f) cid uid = some (savedState states cid uid f) := by
  unfold setState savedState
  cases h : findState states cid uid with
  | none =>
    simp only [h, Option.getD_none]
    unfold findState at h ⊢
    rw [find?_append_of_none _ _ _ h]
    simp [List.find?, hf, stateKey_defaultState]
  | some s0 =>
    simp only [h, Option.getD_some]
    unfold findState at h ⊢
    rw [find?_map_cond (stateKey cid uid) f hf states, h]
    rfl

/-- Reduction of `consumerSetTyping` when the conversation and the user both
exist in the store. -/
theorem consumerSetTyping_of_found (db : DB) (uid cid : Nat) (isT : Bool) (now : Nat)
    (conversation : Conversation) (hfc : findConv db cid = some conversation)
    (hu : db.users.contains uid = true) :
    consumerSetTyping db uid cid isT now =
      { db with participant_states := setState db.participant_states cid uid (fun s => { s with is_typing := isT, last_typing_at := some now }) } := by
  unfold consumerSetTyping
  rw [hfc, hu]

/-- C1 counterexample: on the concrete store `dbW`, mark-all-seen by the
buyer transitions one message (response `ok 1`) yet performs zero
`group_send` calls, and mark-one-read likewise transitions message 10 while
performing zero `group_send` calls — the claimed broadcast push does not
happen for these two synchronous operations. -/
theorem C1_counterexample :
    (mark_seen dbW 1 1 7).broadcasts = [] ∧
    (mark_seen dbW 1 1 7).resp = SeenResp.ok 1 ∧
    (mark_read dbW 10 1 7).broadcasts = [] ∧
    (mark_read dbW 10 1 7).resp = ReadResp.ok true :=
  ⟨rfl, rfl, rfl, rfl⟩

/-- C1 (amended): of the synchronous chat operations, only the typing
endpoint pushes a broadcast event to the conversation's group; mark-all-seen
and mark-one-read perform their state transitions without any `group_send`. -/
theorem C1_amended_broadcasts :
    (∀ db convId userId now, (mark_seen db convId userId now).broadcasts = []) ∧
    (∀ db msgId userId now, (mark_read db msgId userId now).broadcasts = []) ∧
    (∀ db convId userId isTypingField now conversation,
      findConv db convId = some conversation →
      isParticipant conversation userId = true →
      ∃ p, (typing db convId userId isTypingField now true).broadcasts =
          [(groupName conversation.id, GroupMsg.conversationTyping p)] ∧
        p.is_typing = isTypingField.getD true ∧ p.user_id = userId) := by
  refine ⟨?_, ?_, ?_⟩
  · intro db convId userId now
    cases hfc : findConv db convId with
    | none => simp [mark_seen, hfc]
    | some conversation =>
      cases hp : isParticipant conversation userId <;> simp [mark_seen, hfc, hp]
  · intro db msgId userId now
    cases hfm : db.messages.find? (fun x => x.id == msgId) with
    | none => simp [mark_read, hfm]
    | some msg =>
      cases hfc : findConv db msg.conversation_id with
      | none => simp [mark_read, hfm, hfc]
      | some conversation =>
        cases hp : isParticipant conversation userId
        · simp [mark_read, hfm, hfc, hp]
        · cases hs : msg.sender_id == userId
          · cases hr : msg.is_read <;> simp [mark_read, hfm, hfc, hp, hs, hr]
          · simp [mark_read, hfm, hfc, hp, hs]
  · intro db convId userId isTypingField now conversation hfc hp
    refine ⟨payloadOfState (savedState db.participant_states conversation.id userId
      (fun s => { s with is_typing := isTypingField.getD true, last_typing_at := some now })),
      ?_, rfl, ?_⟩
    · simp [typing, hfc, hp]
    · show (savedState db.participant_states conversation.id userId _).user_id = userId
      unfold savedState
      cases hfs : findState db.participant_states conversation.id userId with
      | none => rfl
      | some s0 =>
        have hk := List.find?_some hfs
        simp only [stateKey, Bool.and_eq_true, beq_iff_eq] at hk
        simpa using hk.2

/-- C1 witness: the amended statement at concrete inputs — mark-all-seen and
mark-one-read on `dbW` broadcast nothing; typing on `dbE` broadcasts one
typing snapshot for user 1. -/
theorem C1_amended_broadcasts_witness :
    (mark_seen dbW 1 1 7).broadcasts = [] ∧
    (mark_read dbW 10 1 7).broadcasts = [] ∧
    (∃ p, (typing dbE 1 1 none 7 true).broadcasts =
        [(groupName 1, GroupMsg.conversationTyping p)] ∧
      p.is_typing = true ∧ p.user_id = 1) :=
  ⟨C1_amended_broadcasts.1 dbW 1 1 7,
   C1_amended_broadcasts.2.1 dbW 10 1 7,
   C1_amended_broadcasts.2.2 dbE 1 1 none 7 ⟨1, 1, 2, 0⟩ rfl rfl⟩

/-- C2 counterexample: connecting authenticated as user 7 to `dbC` with the
raw conversation identifier `"0"` — which is not a well-formed positive
integer, and which the deployed route pattern `\d+` admits — closes with
4403, the non-participant code, not with the malformed-identifier code 4400:
`int("0")` succeeds, so the identifier falls through to the membership
check. -/
theorem C2_counterexample :
    (connect dbC [] (some 7) "0" 9 5).outcome = ConnectOutcome.closed 4403 ∧
    specWellFormedPositiveId "0" = false ∧ (4403 : Nat) ≠ 4400 :=
  ⟨rfl, rfl, by decide⟩

/-- C2 (amended): the three rejection cases of connection open use pairwise
distinct close codes — 4401 for an anonymous identity, 4400 for a
conversation identifier that `int()` cannot parse (an identifier parsing to
an integer matching no conversation of the user, such as a non-positive one,
instead closes with the forbidden code), 4403 for an authenticated
non-participant — and in the forbidden case the broadcaster registry is left
untouched. -/
theorem C2_amended_close_codes :
    (∀ db groups raw channel now,
      (connect db groups none raw channel now).outcome = ConnectOutcome.closed 4401) ∧
    (∀ db groups uid raw channel now, pyInt raw = none →
      (connect db groups (some uid) raw channel now).outcome = ConnectOutcome.closed 4400) ∧
    (∀ db groups uid raw channel now n, pyInt raw = some n →
      db.conversations.any (fun c => ((c.id : Int) == n) && isParticipant c uid) = false →
      (connect db groups (some uid) raw channel now).outcome = ConnectOutcome.closed 4403 ∧
      (connect db groups (some uid) raw channel now).groups = groups) ∧
    ((4401 : Nat) ≠ 4400 ∧ (4401 : Nat) ≠ 4403 ∧ (4400 : Nat) ≠ 4403) := by
  refine ⟨?_, ?_, ?_, by decide, by decide, by decide⟩
  · intro db groups raw channel now
    rfl
  · intro db groups uid raw channel now hpi
    simp [connect, hpi]
  · intro db groups uid raw channel now n hpi hmem
    simp [connect, hpi, hmem]

/-- C2 witness: the amended statement at concrete inputs on `dbC`: anonymous
closes 4401; `"abc"` closes 4400; user 9 (not a participant of conversation
1) closes 4403 with the registry left empty. -/
theorem C2_amended_close_codes_witness :
    (connect dbC [] none "1" 9 5).outcome = ConnectOutcome.closed 4401 ∧
    (connect dbC [] (some 7) "abc" 9 5).outcome = ConnectOutcome.closed 4400 ∧
    ((connect dbC [] (some 9) "1" 9 5).outcome = ConnectOutcome.closed 4403 ∧
      (connect dbC [] (some 9) "1" 9 5).groups = []) :=
  ⟨C2_amended_close_codes.1 dbC [] "1" 9 5,
   C2_amended_close_codes.2.1 dbC [] 7 "abc" 9 5 rfl,
   C2_amended_close_codes.2.2.1 dbC [] 9 "1" 9 5 1 rfl rfl⟩

/-- C6: a participant calling mark-one-read on their own message gets the
message's current `is_read` back and the whole store — message rows and
participant states alike — is unchanged. -/
theorem C6_self_mark_read_noop (db : DB) (msgId userId now : Nat)
    (m : Message) (conversation : Conversation)
    (hm : db.messages.find? (fun x => x.id == msgId) = some m)
    (hc : findConv db m.conversation_id = some conversation)
    (hp : isParticipant conversation userId = true)
    (hs : m.sender_id = userId) :
    mark_read db msgId userId now = ⟨db, [], ReadResp.ok m.is_read⟩ := by
  simp [mark_read, hm, hc, hp, hs]

/-- C6 witness: user 2 (the sender of message 10 in `dbW`) marking it read
gets `is_read = false` back with the store untouched. -/
theorem C6_self_mark_read_noop_witness :
    mark_read dbW 10 2 7 = ⟨dbW, [], ReadResp.ok false⟩ :=
  C6_self_mark_read_noop dbW 10 2 7 ⟨10, 1, 2, "yo", MessageStatus.sent, false, 3⟩
    ⟨1, 1, 2, 0⟩ rfl rfl rfl rfl

/-- C7 counterexample: with the notification write failing on `dbE`, create
does not complete successfully — it surfaces the uncaught exception — even
though the message row was already persisted, contradicting the claimed
log-and-swallow behaviour. -/
theorem C7_counterexample :
    (create dbE 1 "hello" 1 5 6 10 ⟨true, true⟩).resp = CreateResp.serverError ∧
    (create dbE 1 "hello" 1 5 6 10 ⟨true, true⟩).db.messages =
      [⟨10, 1, 1, "hello", MessageStatus.sent, false, 5⟩] ∧
    (create dbE 1 "hello" 1 5 6 10 ⟨true, true⟩).broadcasts = [] :=
  ⟨rfl, rfl, rfl⟩

/-- C7 (amended): when the Notification write fails during message create,
the already-committed message write is not rolled back — the message row,
the conversation-timestamp bump and the sender-state bump all remain — but
the failure is not logged and swallowed: the exception propagates, the
request fails, no notification row is persisted and no broadcast is pushed. -/
theorem C7_amended_notification_fault (db : DB) (convId : Nat) (text : String)
    (userId createdAt now newMsgId : Nat) (hasCL : Bool) (conversation : Conversation)
    (hfc : findConv db convId = some conversation)
    (hp : isParticipant conversation userId = true) :
    (create db convId text userId createdAt now newMsgId ⟨hasCL, true⟩).resp =
      CreateResp.serverError ∧
    (create db convId text userId createdAt now newMsgId ⟨hasCL, true⟩).db.messages =
      db.messages ++ [⟨newMsgId, conversation.id, userId, text, MessageStatus.sent, false, createdAt⟩] ∧
    (create db convId text userId createdAt now newMsgId ⟨hasCL, true⟩).db.notifications =
      db.notifications ∧
    (create db convId text userId createdAt now newMsgId ⟨hasCL, true⟩).broadcasts = [] := by
  simp [create, hfc, hp]

/-- C7 witness: the amended statement at the concrete input of the
counterexample store. -/
theorem C7_amended_notification_fault_witness :
    (create dbE 1 "hello" 1 5 6 10 ⟨true, true⟩).resp = CreateResp.serverError ∧
    (create dbE 1 "hello" 1 5 6 10 ⟨true, true⟩).db.messages =
      dbE.messages ++ [⟨10, 1, 1, "hello", MessageStatus.sent, false, 5⟩] ∧
    (create dbE 1 "hello" 1 5 6 10 ⟨true, true⟩).db.notifications = dbE.notifications ∧
    (create dbE 1 "hello" 1 5 6 10 ⟨true, true⟩).broadcasts = [] :=
  C7_amended_notification_fault dbE 1 "hello" 1 5 6 10 true ⟨1, 1, 2, 0⟩ rfl rfl

/-- C8: identity resolution in the connection middleware — a query token
that is non-empty after stripping takes precedence (the header is never
consulted), an empty query token behaves as no token, a whitespace-only
query token falls back to the header alone, the header's `Bearer ` value is
used when no query token exists, and a failing validator always yields the
anonymous identity instead of a hard failure. -/
theorem C8_token_resolution :
    (∀ v rest authHeader validate, v ≠ "" → pyStrip v ≠ "" →
      middlewareUser (v :: rest) authHeader validate = validate (pyStrip v)) ∧
    (∀ rest authHeader validate,
      middlewareUser ("" :: rest) authHeader validate =
        middlewareUser rest authHeader validate) ∧
    (∀ v rest authHeader validate, v ≠ "" → pyStrip v = "" →
      middlewareUser (v :: rest) authHeader validate =
        middlewareUser [] authHeader validate) ∧
    (∀ h validate t, extractBearer h = some t → t ≠ "" →
      middlewareUser [] (some h) validate = validate t) ∧
    (∀ queryTokenValues authHeader validate, (∀ t, validate t = none) →
      middlewareUser queryTokenValues authHeader validate = none) := by
  refine ⟨?_, ?_, ?_, ?_, ?_⟩
  · intro v rest authHeader validate hv hvt
    have h1 : (v == "") = false := by simp [hv]
    have h2 : (pyStrip v == "") = false := by simp [hvt]
    simp [middlewareUser, rawTokenOf, h1, h2]
  · intro rest authHeader validate
    simp [middlewareUser, rawTokenOf]
  · intro v rest authHeader validate hv hvt
    have h1 : (v == "") = false := by simp [hv]
    simp [middlewareUser, rawTokenOf, h1, hvt]
  · intro h validate t hbe ht
    have h2 : (t == "") = false := by simp [ht]
    simp [middlewareUser, rawTokenOf, hbe, h2]
  · intro q a validate hval
    unfold middlewareUser
    cases rawTokenOf q a with
    | none => rfl
    | some t => exact hval t

/-- C8 witness: with validator `valW`, a query token `tokA` wins over a
`Bearer tokB` header; an empty and a whitespace-only query token fall back
to the header; the bare header resolves to user 2; an always-failing
validator yields the anonymous identity. -/
theorem C8_token_resolution_witness :
    middlewareUser ["tokA"] (some "Bearer tokB") valW = some 1 ∧
    middlewareUser [""] (some "Bearer tokB") valW =
      middlewareUser [] (some "Bearer tokB") valW ∧
    middlewareUser [" "] (some "Bearer tokB") valW =
      middlewareUser [] (some "Bearer tokB") valW ∧
    middlewareUser [] (some "Bearer tokB") valW = some 2 ∧
    middlewareUser ["zzz"] (some "Bearer tokB") (fun _ => none) = none := by
  refine ⟨?_, ?_, ?_, ?_, ?_⟩
  · exact (C8_token_resolution.1 "tokA" [] (some "Bearer tokB") valW
      (by decide) (by decide)).trans (by decide)
  · exact C8_token_resolution.2.1 [] (some "Bearer tokB") valW
  · exact C8_token_resolution.2.2.1 " " [] (some "Bearer tokB") valW (by decide) (by decide)
  · exact (C8_token_resolution.2.2.2.1 "Bearer tokB" valW "tokB"
      (by decide) (by decide)).trans (by decide)
  · exact C8_token_resolution.2.2.2.2 ["zzz"] (some "Bearer tokB") (fun _ => none)
      (fun _ => rfl)

/-- C9: for a connected non-anonymous user of an existing conversation,
disconnect — whatever the close code, and whatever typing state was stored —
removes this connection's channel from the conversation's broadcast group
and forces the user's participant state to `is_typing = false`. -/
theorem C9_disconnect_clears (db : DB) (groups : List (String × Nat))
    (uid cid channel closeCode now : Nat) (conversation : Conversation)
    (hfc : findConv db cid = some conversation)
    (hu : db.users.contains uid = true) :
    (∀ p ∈ (disconnect db groups (some uid) (some (groupName cid)) (some cid)
        channel closeCode now).groups, ¬(p.1 = groupName cid ∧ p.2 = channel)) ∧
    (∃ s, findState (disconnect db groups (some uid) (some (groupName cid)) (some cid)
        channel closeCode now).db.participant_states cid uid = some s ∧
      s.is_typing = false) := by
  constructor
  · intro p hp hcon
    have hmem : p ∈ groups.filter (fun q => !(q.1 == groupName cid && q.2 == channel)) := by
      simpa [disconnect] using hp
    have hpred := (List.mem_filter.mp hmem).2
    rcases hcon with ⟨h1, h2⟩
    simp [h1, h2] at hpred
  · have hset := findState_setState db.participant_states cid uid
      (fun s => { s with is_typing := false, last_typing_at := some now }) (fun s => rfl)
    refine ⟨savedState db.participant_states cid uid
      (fun s => { s with is_typing := false, last_typing_at := some now }), ?_, rfl⟩
    show findState (consumerSetTyping db uid cid false now).participant_states cid uid = some _
    rw [consumerSetTyping_of_found db uid cid false now conversation hfc hu]
    exact hset

/-- C9 witness: user 7 disconnecting from conversation 1 of `dbC` (channel 9,
close code 1000) leaves the registry empty and its typing flag false. -/
theorem C9_disconnect_clears_witness :
    (disconnect dbC [(groupName 1, 9)] (some 7) (some (groupName 1)) (some 1)
      9 1000 5).groups = [] ∧
    (∃ s, findState (disconnect dbC [(groupName 1, 9)] (some 7) (some (groupName 1))
        (some 1) 9 1000 5).db.participant_states 1 7 = some s ∧
      s.is_typing = false) :=
  ⟨rfl, (C9_disconnect_clears dbC [(groupName 1, 9)] 7 1 9 1000 5 ⟨1, 7, 2, 0⟩ rfl rfl).2⟩

/-- C10: on both typing paths — the duplex `typing` event and the
synchronous typing endpoint — a request that omits the `is_typing` field
sets the caller's typing flag to `true`. -/
theorem C10_typing_default_true :
    (∀ db uid cid now conversation, findConv db cid = some conversation →
      db.users.contains uid = true →
      ∃ s, findState (receive_json db (some uid) (some cid)
          ⟨some "typing", none⟩ now).db.participant_states cid uid = some s ∧
        s.is_typing = true) ∧
    (∀ db cid uid now hasCL conversation, findConv db cid = some conversation →
      isParticipant conversation uid = true →
      (typing db cid uid none now hasCL).resp = TypingResp.ok true ∧
      ∃ s, findState (typing db cid uid none now hasCL).db.participant_states
          conversation.id uid = some s ∧ s.is_typing = true) := by
  constructor
  · intro db uid cid now conversation hfc hu
    have hset := findState_setState db.participant_states cid uid
      (fun s => { s with is_typing := true, last_typing_at := some now }) (fun s => rfl)
    have hcs := consumerSetTyping_of_found db uid cid true now conversation hfc hu
    have e1 : (("typing" : String) == "ping") = false := by decide
    have e2 : (("typing" : String) == "typing") = true := by decide
    have hdbeq : (receive_json db (some uid) (some cid) ⟨some "typing", none⟩ now).db =
        consumerSetTyping db uid cid true now := by
      simp only [receive_json, e1, e2, Bool.false_eq_true, if_false, if_true, Option.getD_none]
      cases findState (consumerSetTyping db uid cid true now).participant_states cid uid <;> rfl
    refine ⟨savedState db.participant_states cid uid
      (fun s => { s with is_typing := true, last_typing_at := some now }), ?_, rfl⟩
    rw [hdbeq, hcs]
    exact hset
  · intro db cid uid now hasCL conversation hfc hp
    have hset := findState_setState db.participant_states conversation.id uid
      (fun s => { s with is_typing := true, last_typing_at := some now }) (fun s => rfl)
    constructor
    · simp [typing, hfc, hp]
    · refine ⟨savedState db.participant_states conversation.id uid
        (fun s => { s with is_typing := true, last_typing_at := some now }), ?_, rfl⟩
      simp [typing, hfc, hp, hset]

/-- C10 witness: both paths on `dbE` with the `is_typing` field absent leave
user 1's typing flag true. -/
theorem C10_typing_default_true_witness :
    (∃ s, findState (receive_json dbE (some 1) (some 1)
        ⟨some "typing", none⟩ 7).db.participant_states 1 1 = some s ∧
      s.is_typing = true) ∧
    ((typing dbE 1 1 none 7 true).resp = TypingResp.ok true ∧
      ∃ s, findState (typing dbE 1 1 none 7 true).db.participant_states 1 1 = some s ∧
        s.is_typing = true) :=
  ⟨C10_typing_default_true.1 dbE 1 1 7 ⟨1, 1, 2, 0⟩ rfl rfl,
   C10_typing_default_true.2 dbE 1 1 7 true ⟨1, 1, 2, 0⟩ rfl rfl⟩

/-- A found conversation carries the id it was looked up by. -/
theorem findConv_id (db : DB) (cid : Nat) (conversation : Conversation)
    (h : findConv db cid = some conversation) : conversation.id = cid := by
  have h2 := List.find?_some h
  simpa using h2

/-- Looking up a conversation after the `last_message_at` bulk update. -/
theorem findConv_bumped (convs : List Conversation) (cid t : Nat)
    (conversation : Conversation)
    (h : convs.find? (fun c => c.id == cid) = some conversation) :
    (convs.map (fun c => if c.id == cid then { c with last_message_at := t } else c)).find?
        (fun c => c.id == cid) = some { conversation with last_message_at := t } := by
  rw [find?_map_cond (fun c => c.id == cid) (fun c => { c with last_message_at := t })
    (fun c => rfl) convs, h]
  rfl

/-- Full reduction of `create` on the happy path (channel layer configured,
notification write succeeding, conversation found, caller a participant). -/
theorem create_success_shape (db : DB) (convId : Nat) (text : String)
    (userId createdAt now newMsgId : Nat) (conversation : Conversation)
    (hfc : findConv db convId = some conversation)
    (hp : isParticipant conversation userId = true) :
    create db convId text userId createdAt now newMsgId ⟨true, false⟩ =
      ⟨⟨db.users,
        db.conversations.map (fun c => if c.id == conversation.id then { c with last_message_at := createdAt } else c),
        db.messages ++ [⟨newMsgId, conversation.id, userId, text, MessageStatus.sent, false, createdAt⟩],
        setState db.participant_states conversation.id userId (setSeen now),
        db.notifications ++ [⟨(if userId == conversation.buyer_id then conversation.seller_user_id else conversation.buyer_id), "chat_message", "New message", pyTake text 120, conversation.id, newMsgId⟩]⟩,
       [(groupName conversation.id, GroupMsg.chatMessage ⟨newMsgId, conversation.id, userId, text, MessageStatus.sent, false, createdAt⟩)],
       CreateResp.created ⟨newMsgId, conversation.id, userId, text, MessageStatus.sent, false, createdAt⟩⟩ := by
  simp [create, hfc, hp]

/-- C3: a participant's message-create persists the message with status
`sent` and `is_read=false`, bumps the conversation's `last_message_at` to
the message's creation time, bumps the sender's seen/read timestamps and
clears their typing flag, appends exactly one notification addressed to the
other participant, and broadcasts the message to the conversation's group
(channel layer configured, notification write succeeding). -/
theorem C3_create_effects (db : DB) (convId : Nat) (text : String)
    (userId createdAt now newMsgId : Nat) (conversation : Conversation)
    (hfc : findConv db convId = some conversation)
    (hp : isParticipant conversation userId = true) :
    (create db convId text userId createdAt now newMsgId ⟨true, false⟩).resp =
      CreateResp.created ⟨newMsgId, conversation.id, userId, text, MessageStatus.sent, false, createdAt⟩ ∧
    (create db convId text userId createdAt now newMsgId ⟨true, false⟩).db.messages =
      db.messages ++ [⟨newMsgId, conversation.id, userId, text, MessageStatus.sent, false, createdAt⟩] ∧
    findConv (create db convId text userId createdAt now newMsgId ⟨true, false⟩).db
        conversation.id = some { conversation with last_message_at := createdAt } ∧
    (∃ s, findState (create db convId text userId createdAt now newMsgId ⟨true, false⟩).db.participant_states
        conversation.id userId = some s ∧
      s.last_seen_at = some now ∧ s.last_read_at = some now ∧ s.is_typing = false) ∧
    (∃ nf, (create db convId text userId createdAt now newMsgId ⟨true, false⟩).db.notifications =
        db.notifications ++ [nf] ∧
      nf.user_id = (if userId == conversation.buyer_id then conversation.seller_user_id else conversation.buyer_id) ∧
      nf.notif_type = "chat_message" ∧ nf.data_conversation_id = conversation.id ∧
      nf.data_message_id = newMsgId) ∧
    (create db convId text userId createdAt now newMsgId ⟨true, false⟩).broadcasts =
      [(groupName conversation.id, GroupMsg.chatMessage ⟨newMsgId, conversation.id, userId, text, MessageStatus.sent, false, createdAt⟩)] := by
  have hsh := create_success_shape db convId text userId createdAt now newMsgId conversation hfc hp
  have hid : conversation.id = convId := findConv_id db convId conversation hfc
  have hfc2 : db.conversations.find? (fun c => c.id == conversation.id) = some conversation := by
    rw [hid]; exact hfc
  have hset := findState_setState db.participant_states conversation.id userId
    (setSeen now) (fun s => rfl)
  rw [hsh]
  refine ⟨rfl, rfl, ?_,
    ⟨savedState db.participant_states conversation.id userId (setSeen now), hset, rfl, rfl, rfl⟩,
    ⟨_, rfl, rfl, rfl, rfl, rfl⟩, rfl⟩
  exact findConv_bumped db.conversations conversation.id createdAt conversation hfc2

/-- C3 witness: user 1 creating "hi" in conversation 1 of `dbE`. -/
theorem C3_create_effects_witness :
    (create dbE 1 "hi" 1 5 6 11 ⟨true, false⟩).resp =
      CreateResp.created ⟨11, 1, 1, "hi", MessageStatus.sent, false, 5⟩ ∧
    (create dbE 1 "hi" 1 5 6 11 ⟨true, false⟩).db.messages =
      dbE.messages ++ [⟨11, 1, 1, "hi", MessageStatus.sent, false, 5⟩] ∧
    findConv (create dbE 1 "hi" 1 5 6 11 ⟨true, false⟩).db 1 = some ⟨1, 1, 2, 5⟩ ∧
    (∃ s, findState (create dbE 1 "hi" 1 5 6 11 ⟨true, false⟩).db.participant_states 1 1 =
        some s ∧
      s.last_seen_at = some 6 ∧ s.last_read_at = some 6 ∧ s.is_typing = false) ∧
    (∃ nf, (create dbE 1 "hi" 1 5 6 11 ⟨true, false⟩).db.notifications =
        dbE.notifications ++ [nf] ∧
      nf.user_id = 2 ∧ nf.notif_type = "chat_message" ∧ nf.data_conversation_id = 1 ∧
      nf.data_message_id = 11) ∧
    (create dbE 1 "hi" 1 5 6 11 ⟨true, false⟩).broadcasts =
      [(groupName 1, GroupMsg.chatMessage ⟨11, 1, 1, "hi", MessageStatus.sent, false, 5⟩)] :=
  C3_create_effects dbE 1 "hi" 1 5 6 11 ⟨1, 1, 2, 0⟩ rfl rfl

/-- Full reduction of `mark_seen` on the happy path. -/
theorem mark_seen_success_shape (db : DB) (convId userId now : Nat)
    (conversation : Conversation)
    (hfc : findConv db convId = some conversation)
    (hp : isParticipant conversation userId = true) :
    mark_seen db convId userId now =
      ⟨⟨db.users, db.conversations,
        db.messages.map (fun m => if markSeenTarget conversation.id userId m then { m with is_read := true, status := MessageStatus.read } else m),
        setState db.participant_states conversation.id userId (setSeen now),
        db.notifications⟩,
       [],
       SeenResp.ok (db.messages.filter (markSeenTarget conversation.id userId)).length⟩ := by
  simp [mark_seen, hfc, hp]

/-- C5: mark-all-seen by a participant turns every unread message of the
conversation not sent by the caller into `read` / `is_read=true`, leaves
every message sent by the caller untouched, and unconditionally bumps the
caller's seen/read timestamps while clearing their typing flag. -/
theorem C5_mark_seen_effects (db : DB) (convId userId now : Nat)
    (conversation : Conversation)
    (hfc : findConv db convId = some conversation)
    (hp : isParticipant conversation userId = true) :
    (∀ m ∈ db.messages, m.conversation_id = conversation.id → m.sender_id ≠ userId →
      m.is_read = false →
      ({ m with is_read := true, status := MessageStatus.read } : Message) ∈
        (mark_seen db convId userId now).db.messages) ∧
    (∀ m ∈ db.messages, m.sender_id = userId →
      m ∈ (mark_seen db convId userId now).db.messages) ∧
    (∃ s, findState (mark_seen db convId userId now).db.participant_states
        conversation.id userId = some s ∧
      s.last_seen_at = some now ∧ s.last_read_at = some now ∧ s.is_typing = false) := by
  have hsh := mark_seen_success_shape db convId userId now conversation hfc hp
  have hset := findState_setState db.participant_states conversation.id userId
    (setSeen now) (fun s => rfl)
  rw [hsh]
  refine ⟨?_, ?_,
    ⟨savedState db.participant_states conversation.id userId (setSeen now), hset, rfl, rfl, rfl⟩⟩
  · intro m hm hcv hsd hrd
    have ht : markSeenTarget conversation.id userId m = true := by
      simp [markSeenTarget, hcv, hrd, hsd]
    have hmem := List.mem_map_of_mem
      (fun m => if markSeenTarget conversation.id userId m then { m with is_read := true, status := MessageStatus.read } else m) hm
    simpa [ht] using hmem
  · intro m hm hs
    have ht : markSeenTarget conversation.id userId m = false := by
      simp [markSeenTarget, hs]
    have hmem := List.mem_map_of_mem
      (fun m => if markSeenTarget conversation.id userId m then { m with is_read := true, status := MessageStatus.read } else m) hm
    simpa [ht] using hmem

/-- C5 witness: the seller-side view — caller 1 marking conversation 1 of
`dbW` seen flips the unread message of user 2 to read and bumps caller 1's
state. -/
theorem C5_mark_seen_effects_witness :
    (⟨10, 1, 2, "yo", MessageStatus.read, true, 3⟩ : Message) ∈
      (mark_seen dbW 1 1 7).db.messages ∧
    (∃ s, findState (mark_seen dbW 1 1 7).db.participant_states 1 1 = some s ∧
      s.last_seen_at = some 7 ∧ s.last_read_at = some 7 ∧ s.is_typing = false) :=
  ⟨(C5_mark_seen_effects dbW 1 1 7 ⟨1, 1, 2, 0⟩ rfl rfl).1
      ⟨10, 1, 2, "yo", MessageStatus.sent, false, 3⟩ (by decide) rfl (by decide) rfl,
   (C5_mark_seen_effects dbW 1 1 7 ⟨1, 1, 2, 0⟩ rfl rfl).2.2⟩

/-- Any status is at most `read` in the forward order. -/
theorem statusRank_le_read (st : MessageStatus) :
    statusRank st ≤ statusRank MessageStatus.read := by
  cases st <;> decide

/-- A conditional bulk update to `read` only moves messages forward. -/
theorem exists_mono_in_map (l : List Message) (cond : Message → Bool)
    (m : Message) (hm : m ∈ l) :
    ∃ m2 ∈ l.map (fun x => if cond x then { x with is_read := true, status := MessageStatus.read } else x),
      m2.id = m.id ∧ statusRank m.status ≤ statusRank m2.status ∧
      (m.is_read = true → m2.is_read = true) := by
  refine ⟨(fun x => if cond x then { x with is_read := true, status := MessageStatus.read } else x) m,
    List.mem_map_of_mem _ hm, ?_, ?_, ?_⟩ <;>
      by_cases h : cond m = true <;> simp [h, statusRank_le_read]

/-- The messages table after `mark_read` is either unchanged or a
single-message bulk update to `read`. -/
theorem mark_read_messages_shape (db : DB) (msgId userId now : Nat) :
    (mark_read db msgId userId now).db.messages = db.messages ∨
    ∃ i, (mark_read db msgId userId now).db.messages =
      db.messages.map (fun x => if x.id == i then { x with is_read := true, status := MessageStatus.read } else x) := by
  cases hfm : db.messages.find? (fun m => m.id == msgId) with
  | none => left; simp [mark_read, hfm]
  | some msg =>
    cases hfc : findConv db msg.conversation_id with
    | none => left; simp [mark_read, hfm, hfc]
    | some conversation =>
      cases hp : isParticipant conversation userId with
      | false => left; simp [mark_read, hfm, hfc, hp]
      | true =>
        cases hs : msg.sender_id == userId with
        | true => left; simp [mark_read, hfm, hfc, hp, hs]
        | false =>
          cases hr : msg.is_read with
          | false => right; exact ⟨msg.id, by simp [mark_read, hfm, hfc, hp, hs, hr]⟩
          | true => left; simp [mark_read, hfm, hfc, hp, hs, hr]

/-- The messages table after `mark_seen` is either unchanged or a bulk
update of the other side's unread messages to `read`. -/
theorem mark_seen_messages_shape (db : DB) (convId userId now : Nat) :
    (mark_seen db convId userId now).db.messages = db.messages ∨
    ∃ cid, (mark_seen db convId userId now).db.messages =
      db.messages.map (fun x => if markSeenTarget cid userId x then { x with is_read := true, status := MessageStatus.read } else x) := by
  cases hfc : findConv db convId with
  | none => left; simp [mark_seen, hfc]
  | some conversation =>
    cases hp : isParticipant conversation userId with
    | false => left; simp [mark_seen, hfc, hp]
    | true => right; exact ⟨conversation.id, by simp [mark_seen, hfc, hp]⟩

/-- The messages table after `create` is either unchanged or extended by the
new message. -/
theorem create_messages_shape (db : DB) (convId : Nat) (text : String)
    (userId createdAt now newMsgId : Nat) (env : CreateEnv) :
    (create db convId text userId createdAt now newMsgId env).db.messages = db.messages ∨
    ∃ msg, (create db convId text userId createdAt now newMsgId env).db.messages =
      db.messages ++ [msg] := by
  cases hfc : findConv db convId with
  | none => left; simp [create, hfc]
  | some conversation =>
    cases hp : isParticipant conversation userId with
    | false => left; simp [create, hfc, hp]
    | true =>
      cases hnf : env.notifWriteFails with
      | true =>
        right
        exact ⟨⟨newMsgId, conversation.id, userId, text, MessageStatus.sent, false, createdAt⟩,
          by simp [create, hfc, hp, hnf]⟩
      | false =>
        right
        exact ⟨⟨newMsgId, conversation.id, userId, text, MessageStatus.sent, false, createdAt⟩,
          by simp [create, hfc, hp, hnf]⟩

/-- C4: under every synchronous core operation — create, mark-one-read,
mark-all-seen — each pre-existing message keeps its identity with status
moving only forward along `sent → delivered → read`, and a read message is
never made unread again. -/
theorem C4_status_monotone (db : DB) (op : ChatOp) (m : Message)
    (hm : m ∈ db.messages) :
    ∃ m2 ∈ (applyChatOp db op).messages,
      m2.id = m.id ∧ statusRank m.status ≤ statusRank m2.status ∧
      (m.is_read = true → m2.is_read = true) := by
  cases op with
  | createOp c t u ca n i e =>
    simp only [applyChatOp]
    rcases create_messages_shape db c t u ca n i e with h | ⟨msg, h⟩
    · rw [h]; exact ⟨m, hm, rfl, Nat.le_refl _, fun hh => hh⟩
    · rw [h]; exact ⟨m, List.mem_append_left _ hm, rfl, Nat.le_refl _, fun hh => hh⟩
  | markReadOp mid u n =>
    simp only [applyChatOp]
    rcases mark_read_messages_shape db mid u n with h | ⟨i, h⟩
    · rw [h]; exact ⟨m, hm, rfl, Nat.le_refl _, fun hh => hh⟩
    · rw [h]; exact exists_mono_in_map db.messages (fun x => x.id == i) m hm
  | markSeenOp c u n =>
    simp only [applyChatOp]
    rcases mark_seen_messages_shape db c u n with h | ⟨cid, h⟩
    · rw [h]; exact ⟨m, hm, rfl, Nat.le_refl _, fun hh => hh⟩
    · rw [h]; exact exists_mono_in_map db.messages (markSeenTarget cid u) m hm

/-- C4 witness: message 10 of `dbW` under mark-all-seen by user 1 keeps its
id and only moves forward from `sent`. -/
theorem C4_status_monotone_witness :
    ∃ m2 ∈ (applyChatOp dbW (ChatOp.markSeenOp 1 1 7)).messages,
      m2.id = 10 ∧ statusRank MessageStatus.sent ≤ statusRank m2.status ∧
      (false = true → m2.is_read = true) :=
  C4_status_monotone dbW (ChatOp.markSeenOp 1 1 7)
    ⟨10, 1, 2, "yo", MessageStatus.sent, false, 3⟩ (by decide)

end Chat
